import Mathlib

/-!
Verification development for the plaque-risk-explorer repository.

The frontend (`frontend/src/app/page.tsx`) is embedded directly: the
`waterfall` derivation, the `handleSubmit` state transition and the data
types it manipulates.  JavaScript numbers are modelled as rationals (`ℚ`),
so the algebraic structure of every computation is preserved exactly.

The backend evaluation-and-explanation core (CounterfactualExplainer,
BootstrapValidationEngine, RiskTierMapper) is not part of the repository
snapshot; those components are modelled from the specification, each such
definition carrying a doc comment that says so.
-/

/-- `type RiskTier = "low" | "moderate" | "high"` (page.tsx). -/
inductive RiskTier
  | low
  | moderate
  | high
deriving DecidableEq, Repr

/-- The `direction` field of a feature effect:
`"increase" | "decrease" | "neutral"` (page.tsx). -/
inductive Direction
  | increase
  | decrease
  | neutral
deriving DecidableEq, Repr

/-- `type SerializedValue = string | number | boolean | null` (page.tsx). -/
inductive SerializedValue
  | str : String → SerializedValue
  | num : ℚ → SerializedValue
  | bool : Bool → SerializedValue
  | null : SerializedValue
deriving DecidableEq, Repr

/-- `type FeatureEffect` (page.tsx): feature name, signed effect on the
probability, direction tag, the patient's raw value and the baseline's
raw value. -/
structure FeatureEffect where
  feature : String
  effect : ℚ
  direction : Direction
  patient_value : SerializedValue
  reference_value : SerializedValue
deriving DecidableEq, Repr

/-- `type Explainability` (page.tsx). -/
structure Explainability where
  baseline_probability : ℚ
  feature_effects : List FeatureEffect
deriving DecidableEq, Repr

/-- `type BinaryTargetPrediction` (page.tsx). -/
structure BinaryTargetPrediction where
  probability : ℚ
  prediction : ℤ
  risk_tier : RiskTier
deriving DecidableEq, Repr

/-- `type SummarySource = "gemini" | "fallback"` (page.tsx). -/
inductive SummarySource
  | gemini
  | fallback
deriving DecidableEq, Repr

/-- `type ExecutiveSummary` (page.tsx). -/
structure ExecutiveSummary where
  headline : String
  clinical_summary : String
  risk_drivers : List String
  protective_signals : List String
  care_focus : List String
  source : SummarySource
deriving DecidableEq, Repr

/-- `type PredictionResponse` (page.tsx). -/
structure PredictionResponse where
  adverse_outcome : BinaryTargetPrediction
  executive_summary : ExecutiveSummary
  explanation : Explainability
deriving DecidableEq, Repr

/-- `"female" | "male"` (page.tsx). -/
inductive Gender
  | female
  | male
deriving DecidableEq, Repr

/-- `type PredictionRequest` (page.tsx): the 15-feature patient form. -/
structure PredictionRequest where
  gender : Gender
  age : ℚ
  angina_functional_class : Fin 4
  post_infarction_cardiosclerosis : Bool
  multifocal_atherosclerosis : Bool
  diabetes_mellitus : Bool
  hypertension : Bool
  cholesterol_level : ℚ
  bmi : ℚ
  lvef_percent : ℚ
  syntax_score : ℚ
  ffr : Option ℚ
  plaque_volume_percent : ℚ
  lumen_area : ℚ
  unstable_plaque : Bool
deriving DecidableEq, Repr

/-- `initialForm` (page.tsx). -/
def initialForm : PredictionRequest where
  gender := Gender.male
  age := 62
  angina_functional_class := 2
  post_infarction_cardiosclerosis := false
  multifocal_atherosclerosis := false
  diabetes_mellitus := false
  hypertension := true
  cholesterol_level := 52 / 10
  bmi := 28
  lvef_percent := 51
  syntax_score := 18
  ffr := some (83 / 100)
  plaque_volume_percent := 60
  lumen_area := 5
  unstable_plaque := false

/-- One rendered waterfall row (page.tsx, `waterfall().segments` element):
a feature effect spread together with the computed `key`, `left`, `width`. -/
structure WaterfallSegment where
  feature : String
  effect : ℚ
  direction : Direction
  patient_value : SerializedValue
  reference_value : SerializedValue
  key : String
  left : ℚ
  width : ℚ
deriving DecidableEq, Repr

/-- The object returned by the `waterfall` IIFE (page.tsx). -/
structure WaterfallView where
  baseline : ℚ
  target : ℚ
  baselinePos : ℚ
  segments : List WaterfallSegment
deriving DecidableEq, Repr

/-- `waterfall` (page.tsx lines 204-242): derive the displayed waterfall
from the current result.  `selected` is the top-6 slice of the effects;
the residual `target - baseline - selectedTotal` is appended as an
`other_factors` segment when its magnitude exceeds `0.0001`. -/
def waterfall : Option PredictionResponse → Option WaterfallView
  | none => none
  | some result =>
    let baseline := result.explanation.baseline_probability
    let target := result.adverse_outcome.probability
    let selected := result.explanation.feature_effects.take 6
    let selectedTotal := selected.foldl (fun sum e => sum + e.effect) 0
    let residual := target - baseline - selectedTotal
    let selected' :=
      if |residual| > 1 / 10000 then
        selected ++
          [{ feature := "other_factors"
             effect := residual
             direction :=
               if residual > 0 then Direction.increase
               else if residual < 0 then Direction.decrease
               else Direction.neutral
             patient_value := SerializedValue.null
             reference_value := SerializedValue.null }]
      else selected
    let deltaToFinal := target - baseline
    let maxAbs :=
      (selected'.map (fun s => |s.effect|)).foldl max (max |deltaToFinal| (1 / 1000))
    let axisHalfWidth : ℚ := 40
    let baselinePos : ℚ := 50
    some
      { baseline := baseline
        target := target
        baselinePos := baselinePos
        segments :=
          selected'.enum.map (fun p =>
            let width := max ((|p.2.effect| / maxAbs) * axisHalfWidth) (12 / 10)
            let left := if p.2.effect ≥ 0 then baselinePos else baselinePos - width
            { feature := p.2.feature
              effect := p.2.effect
              direction := p.2.direction
              patient_value := p.2.patient_value
              reference_value := p.2.reference_value
              key := p.2.feature ++ "-" ++ toString p.1
              left := left
              width := width }) }

/-- The residual the frontend waterfall computes (page.tsx lines 209-211):
`target - baseline - selectedTotal`, where `selectedTotal` sums only the
first 6 feature effects. -/
def residualOf (r : PredictionResponse) : ℚ :=
  r.adverse_outcome.probability - r.explanation.baseline_probability -
    ((r.explanation.feature_effects.take 6).map FeatureEffect.effect).sum

/-- `humanizeFeature` (page.tsx): pretty-print a snake_case feature name. -/
def humanizeFeature (feature : String) : String :=
  if feature = "lvef_percent" then "LVEF"
  else if feature = "cholesterol_level" then "Cholesterol"
  else
    String.intercalate " "
      ((feature.splitOn "_").map (fun word =>
        if word = "ffr" ∨ word = "bmi" ∨ word = "lvef" ∨ word = "syntax" then
          word.toUpper
        else word.capitalize))

/-- One entry of a FastAPI 422 `detail` array (page.tsx submit handler). -/
structure ValidationErrorItem where
  loc : Option (List String)
  msg : Option String
deriving DecidableEq, Repr

/-- The `detail` field of a 422 payload: an array of items or a string. -/
inductive Detail422
  | items : List ValidationErrorItem → Detail422
  | text : String → Detail422
deriving DecidableEq, Repr

/-- A parsed 422 error body (`payload` in page.tsx); `detail` may be absent. -/
structure ErrorPayload where
  detail : Option Detail422
deriving DecidableEq, Repr

/-- Outcome of the `fetch` call in `handleSubmit` (page.tsx): a successful
JSON response, a non-ok HTTP status (with the parsed 422 body when one could
be read), or a rejected promise carrying an `Error` message. -/
inductive FetchResult
  | ok : PredictionResponse → FetchResult
  | badStatus : Nat → Option ErrorPayload → FetchResult
  | networkError : Option String → FetchResult
deriving DecidableEq, Repr

/-- The error message thrown for a 422 response (page.tsx lines 168-181). -/
def message422 (payload : Option ErrorPayload) : String :=
  match payload with
  | some { detail := some (Detail422.items (first :: _)) } =>
    let field := first.loc.bind List.getLast?
    let fieldLabel :=
      match field with
      | some f => if f ≠ "" then humanizeFeature f ++ ": " else ""
      | none => ""
    fieldLabel ++ first.msg.getD "invalid value"
  | some { detail := some (Detail422.text s) } => s
  | _ => "Invalid input values."

/-- The component state touched by `handleSubmit` (page.tsx `useState` hooks
`result`, `lastSubmitted`, `isLoading`, `error`). -/
structure ClientState where
  result : Option PredictionResponse
  lastSubmitted : Option String
  isLoading : Bool
  error : Option String
deriving DecidableEq, Repr

/-- `handleSubmit` (page.tsx lines 155-192) as a state transition.  The JSON
serializer and the network are the browser's collaborators and are passed in
as functions; the returned `Nat` counts the network requests issued. -/
def handleSubmit (stringify : PredictionRequest → String)
    (fetchPredict : PredictionRequest → FetchResult)
    (form : PredictionRequest) (st : ClientState) : ClientState × Nat :=
  let formJson := stringify form
  if st.result.isSome ∧ st.lastSubmitted = some formJson then (st, 0)
  else
    match fetchPredict form with
    | FetchResult.ok payload =>
      ({ result := some payload, lastSubmitted := some formJson,
         isLoading := false, error := none }, 1)
    | FetchResult.badStatus status payload =>
      let msg := if status = 422 then message422 payload else "Prediction request failed."
      ({ st with isLoading := false, error := some msg }, 1)
    | FetchResult.networkError m =>
      ({ st with isLoading := false, error := some (m.getD "Prediction request failed.") }, 1)

/-- Modelled from the spec: the direction tag of §4.4 step 5 — `"increase"`
if the effect exceeds `ε`, `"decrease"` if it is below `-ε`, otherwise
`"neutral"` (the backend explainer source is not in the repository). -/
def directionTag (eps effect : ℚ) : Direction :=
  if effect > eps then Direction.increase
  else if effect < -eps then Direction.decrease
  else Direction.neutral

/-- Ranking relation of §3 / §4.4 step 6: `a` precedes `b` when `a`'s
absolute effect is at least `b`'s (descending absolute magnitude). -/
def effGE (a b : FeatureEffect) : Prop :=
  |b.effect| ≤ |a.effect|

instance : DecidableRel effGE := fun a b =>
  inferInstanceAs (Decidable (|b.effect| ≤ |a.effect|))

instance : IsTotal FeatureEffect effGE :=
  ⟨fun a b => le_total |b.effect| |a.effect|⟩

instance : IsTrans FeatureEffect effGE :=
  ⟨fun _ _ _ hab hbc => le_trans hbc hab⟩

/-- A feature profile: one serialized value per feature name. -/
def Profile : Type := String → SerializedValue

/-- Modelled from the spec: `ExplanationResult` (§3) — baseline probability,
the ordered list of per-feature effects, the synthetic `other_factors`
residual bucket of §4.4 step 4, and the target probability (the backend
explainer source is not in the repository). -/
structure ExplanationResult where
  baseline_probability : ℚ
  feature_effects : List FeatureEffect
  other_factors : FeatureEffect
  target_probability : ℚ
deriving DecidableEq, Repr

/-- Modelled from the spec: §4.4 step 3 — for each feature `f` of the schema,
predict on the baseline with only `f` set to the patient's value; the raw
effect is `P_f - P0` (the backend explainer source is not in the
repository). -/
def rawEffects (predict : Profile → ℚ) (schema : List String) (eps : ℚ)
    (baseline patient : Profile) : List FeatureEffect :=
  let P0 := predict baseline
  schema.map (fun f =>
    let synthetic : Profile := fun g => if g = f then patient g else baseline g
    let Pf := predict synthetic
    { feature := f
      effect := Pf - P0
      direction := directionTag eps (Pf - P0)
      patient_value := patient f
      reference_value := baseline f })

/-- Modelled from the spec: `CounterfactualExplainer.explain` (§4.4) — the
residual `R = (Ptarget - P0) - Σ raw effects` is attributed to an explicit
`other_factors` bucket and the effects are sorted by descending absolute
magnitude (the backend explainer source is not in the repository). -/
def explain (predict : Profile → ℚ) (schema : List String) (eps : ℚ)
    (baseline patient : Profile) : ExplanationResult :=
  let P0 := predict baseline
  let Pt := predict patient
  let raw := rawEffects predict schema eps baseline patient
  let R := (Pt - P0) - (raw.map FeatureEffect.effect).sum
  { baseline_probability := P0
    feature_effects := List.insertionSort effGE raw
    other_factors :=
      { feature := "other_factors"
        effect := R
        direction := directionTag eps R
        patient_value := SerializedValue.null
        reference_value := SerializedValue.null }
    target_probability := Pt }

/-- Modelled from the spec: `RiskTierMapper.tier` (§4.5) — two fixed
thresholds `t_low < t_high`, with the inclusive-upper boundary convention:
a probability equal to a threshold maps to the higher tier (the backend
mapper source is not in the repository; only the `RiskTier` type appears in
page.tsx). -/
def tier (tLow tHigh p : ℚ) : RiskTier :=
  if tHigh ≤ p then RiskTier.high
  else if tLow ≤ p then RiskTier.moderate
  else RiskTier.low

/-- A dataset row (§3): a feature profile plus a binary label. -/
structure Row where
  features : Profile
  label : Bool

/-- Modelled from the spec: the per-iteration record of a `ValidationReport`
(§3) — in-bag and OOB values of ROC-AUC and PR-AUC (the backend engine
source is not in the repository). -/
structure IterationRecord where
  inBagRoc : ℚ
  inBagPr : ℚ
  oobRoc : ℚ
  oobPr : ℚ
deriving DecidableEq, Repr

/-- Modelled from the spec: `ValidationReport` (§3) — the non-degenerate
iteration records plus apparent, optimism and corrected metrics (the backend
engine source is not in the repository). -/
structure ValidationReport where
  iterations : List IterationRecord
  apparentRoc : ℚ
  apparentPr : ℚ
  optimismRoc : ℚ
  optimismPr : ℚ
  correctedRoc : ℚ
  correctedPr : ℚ
deriving DecidableEq, Repr

/-- Modelled from the spec: the engine's fatal failure taxonomy (§7) — the
distinguished insufficient-data condition. -/
inductive ValidationError
  | insufficientData
deriving DecidableEq, Repr

/-- Out-of-bag indices (§3): the indices in `0..n-1` never drawn in-bag. -/
def oobIndices (n : ℕ) (draws : List ℕ) : List ℕ :=
  (List.range n).filter (fun i => decide (i ∉ draws))

/-- The rows of `dataset` at the given indices, with multiplicity. -/
def rowsAt (dataset : List Row) (idxs : List ℕ) : List Row :=
  idxs.filterMap (fun i => dataset.get? i)

/-- A label list drawn from a single class (§4.2 step 3): it never contains
both `true` and `false`. -/
def singleClass (labels : List Bool) : Bool :=
  !(labels.contains true && labels.contains false)

/-- Modelled from the spec: one bootstrap iteration of
`BootstrapValidationEngine.run` (§4.2 steps 2-6) — the in-bag index multiset
`draws` is the injected randomness; the iteration is degenerate (`none`)
when the OOB set is empty or either label set is single-class, and
otherwise records in-bag and OOB metrics of a freshly fitted classifier
(the backend engine source is not in the repository). -/
def runIteration (fit : List Row → Row → ℚ)
    (computeMetric : List Bool → List ℚ → ℚ × ℚ)
    (dataset : List Row) (draws : List ℕ) : Option IterationRecord :=
  let inBag := rowsAt dataset draws
  let oob := rowsAt dataset (oobIndices dataset.length draws)
  if oob.isEmpty || singleClass (inBag.map Row.label) ||
      singleClass (oob.map Row.label) then
    none
  else
    let model := fit inBag
    let ib := computeMetric (inBag.map Row.label) (inBag.map model)
    let ob := computeMetric (oob.map Row.label) (oob.map model)
    some { inBagRoc := ib.1, inBagPr := ib.2, oobRoc := ob.1, oobPr := ob.2 }

/-- Arithmetic mean of a list of rationals. -/
def mean (xs : List ℚ) : ℚ :=
  xs.sum / xs.length

/-- Modelled from the spec: `BootstrapValidationEngine.run` (§4.2, named
`bootstrap_validation` in the training-pipeline document) — degenerate
iterations are excluded from aggregation; if every iteration is degenerate
the run fails with the insufficient-data condition; otherwise optimism is
the mean of (in-bag − OOB) over the non-degenerate iterations and the
corrected metric is apparent − optimism (the backend engine source is not
in the repository). -/
def bootstrap_validation (fit : List Row → Row → ℚ)
    (computeMetric : List Bool → List ℚ → ℚ × ℚ)
    (dataset : List Row) (drawss : List (List ℕ)) :
    Except ValidationError ValidationReport :=
  let records := drawss.filterMap (runIteration fit computeMetric dataset)
  if records.isEmpty then Except.error ValidationError.insufficientData
  else
    let optimismRoc := mean (records.map (fun rec => rec.inBagRoc - rec.oobRoc))
    let optimismPr := mean (records.map (fun rec => rec.inBagPr - rec.oobPr))
    let fullModel := fit dataset
    let apparent := computeMetric (dataset.map Row.label) (dataset.map fullModel)
    Except.ok
      { iterations := records
        apparentRoc := apparent.1
        apparentPr := apparent.2
        optimismRoc := optimismRoc
        optimismPr := optimismPr
        correctedRoc := apparent.1 - optimismRoc
        correctedPr := apparent.2 - optimismPr }

lemma foldl_add_effect (l : List FeatureEffect) (a : ℚ) :
    l.foldl (fun sum e => sum + e.effect) a = a + (l.map FeatureEffect.effect).sum := by
  induction l generalizing a with
  | nil => simp
  | cons x xs ih => simp [ih, add_assoc]

lemma map_effect_enumFrom (g : ℕ × FeatureEffect → WaterfallSegment)
    (hg : ∀ p, (g p).effect = p.2.effect) (l : List FeatureEffect) :
    ∀ n, ((List.enumFrom n l).map g).map WaterfallSegment.effect
      = l.map FeatureEffect.effect := by
  induction l with
  | nil => intro n; rfl
  | cons x xs ih => intro n; simp [List.enumFrom, hg, ih]

/-- Characterization of the waterfall derivation on a present result: the
view's baseline and target, and its segment list — the top-6 effects
followed by the `other_factors` residual segment exactly when the residual's
magnitude exceeds `0.0001`. -/
lemma waterfall_some_spec (r : PredictionResponse) {w : WaterfallView}
    (h : waterfall (some r) = some w) :
    w.baseline = r.explanation.baseline_probability ∧
    w.target = r.adverse_outcome.probability ∧
    ((|residualOf r| > 1 / 10000 ∧
      ∃ pre other, w.segments = pre ++ [other] ∧
        pre.map WaterfallSegment.effect
          = (r.explanation.feature_effects.take 6).map FeatureEffect.effect ∧
        other.feature = "other_factors" ∧
        other.effect = residualOf r ∧
        other.direction =
          (if residualOf r > 0 then Direction.increase
           else if residualOf r < 0 then Direction.decrease
           else Direction.neutral)) ∨
     (¬ |residualOf r| > 1 / 10000 ∧
      w.segments.map WaterfallSegment.effect
        = (r.explanation.feature_effects.take 6).map FeatureEffect.effect)) := by
  have hfold : (r.explanation.feature_effects.take 6).foldl (fun sum e => sum + e.effect) 0
      = ((r.explanation.feature_effects.take 6).map FeatureEffect.effect).sum := by
    rw [foldl_add_effect]; ring
  have hres_eq : r.adverse_outcome.probability - r.explanation.baseline_probability -
      (r.explanation.feature_effects.take 6).foldl (fun sum e => sum + e.effect) 0
      = residualOf r := by
    rw [hfold]; rfl
  simp only [waterfall, Option.some.injEq] at h
  subst h
  refine ⟨rfl, rfl, ?_⟩
  rw [hres_eq]
  by_cases hres : |residualOf r| > 1 / 10000
  · left
    refine ⟨hres, ?_⟩
    simp only [hres, if_true]
    rw [List.enum_eq_enumFrom, List.enumFrom_append, List.map_append]
    refine ⟨_, _, rfl, ?_, rfl, ?_, ?_⟩
    · exact map_effect_enumFrom _ (fun p => rfl) _ 0
    · show residualOf r = residualOf r
      rfl
    · rfl
  · right
    refine ⟨hres, ?_⟩
    simp only [hres, if_false]
    rw [List.enum_eq_enumFrom]
    exact map_effect_enumFrom _ (fun p => rfl) _ 0

lemma explain_sum_sorted_eq (predict : Profile → ℚ) (schema : List String) (eps : ℚ)
    (baseline patient : Profile) :
    (((explain predict schema eps baseline patient).feature_effects).map
        FeatureEffect.effect).sum
      = ((rawEffects predict schema eps baseline patient).map FeatureEffect.effect).sum :=
  ((List.perm_insertionSort effGE _).map _).sum_eq

/-- Claim C1: additive reconstruction invariant — the explainer's baseline
probability plus the sum of all feature effects plus the residual bucket
equals the target probability exactly (hence within 1e-6); the frontend
waterfall's baseline plus the sum of all displayed segment effects equals
the target to within 1e-4 (exact when the residual segment is displayed,
off by at most the omitted residual otherwise). -/
theorem C1_additive_reconstruction :
    (∀ (predict : Profile → ℚ) (schema : List String) (eps : ℚ)
        (baseline patient : Profile),
      (explain predict schema eps baseline patient).baseline_probability +
        (((explain predict schema eps baseline patient).feature_effects.map
            FeatureEffect.effect).sum +
          (explain predict schema eps baseline patient).other_factors.effect) =
        (explain predict schema eps baseline patient).target_probability) ∧
    (∀ (r : PredictionResponse) (w : WaterfallView), waterfall (some r) = some w →
      |w.baseline + (w.segments.map WaterfallSegment.effect).sum - w.target|
        ≤ 1 / 10000) := by
  constructor
  · intro predict schema eps b p
    rw [explain_sum_sorted_eq]
    show predict b +
        (((rawEffects predict schema eps b p).map FeatureEffect.effect).sum +
          ((predict p - predict b) -
            ((rawEffects predict schema eps b p).map FeatureEffect.effect).sum)) =
      predict p
    ring
  · intro r w h
    obtain ⟨hb, ht, hcase⟩ := waterfall_some_spec r h
    rcases hcase with ⟨hres, pre, other, hseg, hpre, -, heff, -⟩ | ⟨hres, hmap⟩
    · have key : w.baseline + (w.segments.map WaterfallSegment.effect).sum - w.target = 0 := by
        rw [hb, ht, hseg, List.map_append, List.sum_append, hpre]
        simp only [List.map_cons, List.map_nil, List.sum_cons, List.sum_nil, add_zero,
          heff, residualOf]
        ring
      rw [key]
      norm_num
    · have key : w.baseline + (w.segments.map WaterfallSegment.effect).sum - w.target
          = -(residualOf r) := by
        rw [hb, ht, hmap]
        simp only [residualOf]
        ring
      rw [key, abs_neg]
      exact not_lt.mp hres

/-- A concrete two-feature prediction response used to exercise the
frontend waterfall at a concrete input. -/
def sampleResponse : PredictionResponse :=
  { adverse_outcome := { probability := 3 / 10, prediction := 0, risk_tier := RiskTier.moderate }
    executive_summary :=
      { headline := "h", clinical_summary := "c", risk_drivers := [],
        protective_signals := [], care_focus := [], source := SummarySource.fallback }
    explanation :=
      { baseline_probability := 1 / 5
        feature_effects :=
          [{ feature := "age", effect := 1 / 10, direction := Direction.increase,
             patient_value := SerializedValue.num 62, reference_value := SerializedValue.num 60 },
           { feature := "bmi", effect := -(1 / 20), direction := Direction.decrease,
             patient_value := SerializedValue.num 28, reference_value := SerializedValue.num 27 }] } }

/-- The waterfall view the frontend derives from `sampleResponse`: the
residual `3/10 - 1/5 - (1/10 - 1/20) = 1/20` exceeds `0.0001`, so an
`other_factors` segment is appended. -/
def sampleView : WaterfallView :=
  { baseline := 1 / 5, target := 3 / 10, baselinePos := 50,
    segments :=
      [{ feature := "age", effect := 1 / 10, direction := Direction.increase,
         patient_value := SerializedValue.num 62, reference_value := SerializedValue.num 60,
         key := "age-0", left := 50, width := 40 },
       { feature := "bmi", effect := -(1 / 20), direction := Direction.decrease,
         patient_value := SerializedValue.num 28, reference_value := SerializedValue.num 27,
         key := "bmi-1", left := 30, width := 20 },
       { feature := "other_factors", effect := 1 / 20, direction := Direction.increase,
         patient_value := SerializedValue.null, reference_value := SerializedValue.null,
         key := "other_factors-2", left := 50, width := 20 }] }

lemma waterfall_sampleResponse : waterfall (some sampleResponse) = some sampleView := by
  simp only [waterfall, sampleResponse, sampleView, List.enum_eq_enumFrom]
  norm_num [List.enumFrom, abs_of_pos, abs_of_neg]
  decide

lemma residualOf_sampleResponse : residualOf sampleResponse = 1 / 20 := by
  norm_num [residualOf, sampleResponse]

lemma residualOf_sampleResponse_large : |residualOf sampleResponse| > 1 / 10000 := by
  rw [residualOf_sampleResponse, abs_of_pos] <;> norm_num

/-- Witness for C1 at the concrete `sampleResponse`. -/
theorem C1_additive_reconstruction_witness :
    waterfall (some sampleResponse) = some sampleView ∧
    |sampleView.baseline + (sampleView.segments.map WaterfallSegment.effect).sum -
        sampleView.target| ≤ 1 / 10000 :=
  ⟨waterfall_sampleResponse,
   C1_additive_reconstruction.2 sampleResponse sampleView waterfall_sampleResponse⟩

/-- Claim C2: for every report produced by the bootstrap engine, the
corrected metric equals the apparent metric minus the optimism, and the
optimism is the mean over exactly the non-degenerate iterations of
(in-bag metric − OOB metric), for both ROC-AUC and PR-AUC. -/
theorem C2_optimism_correction (fit : List Row → Row → ℚ)
    (computeMetric : List Bool → List ℚ → ℚ × ℚ)
    (dataset : List Row) (drawss : List (List ℕ)) (report : ValidationReport)
    (h : bootstrap_validation fit computeMetric dataset drawss = Except.ok report) :
    report.correctedRoc = report.apparentRoc - report.optimismRoc ∧
    report.correctedPr = report.apparentPr - report.optimismPr ∧
    report.iterations = drawss.filterMap (runIteration fit computeMetric dataset) ∧
    report.optimismRoc = mean (report.iterations.map (fun rec => rec.inBagRoc - rec.oobRoc)) ∧
    report.optimismPr = mean (report.iterations.map (fun rec => rec.inBagPr - rec.oobPr)) := by
  simp only [bootstrap_validation] at h
  split at h
  · exact (Except.noConfusion h)
  · injection h with h
    subst h
    exact ⟨rfl, rfl, rfl, rfl, rfl⟩

/-- A stub classifier factory for concrete runs: every fitted model scores a
row by its label. -/
def wFit : List Row → Row → ℚ :=
  fun _ r => if r.label then 3 / 4 else 1 / 4

/-- A stub metric computer for concrete runs: constant metrics. -/
def wCM : List Bool → List ℚ → ℚ × ℚ :=
  fun _ _ => (1 / 2, 1 / 3)

/-- A concrete four-row dataset with alternating labels. -/
def wData : List Row :=
  [{ features := fun _ => SerializedValue.null, label := true },
   { features := fun _ => SerializedValue.null, label := false },
   { features := fun _ => SerializedValue.null, label := true },
   { features := fun _ => SerializedValue.null, label := false }]

/-- The report of the one-iteration run over `wData` with draws `[0,1,0,1]`. -/
def wReport : ValidationReport :=
  { iterations := [{ inBagRoc := 1 / 2, inBagPr := 1 / 3, oobRoc := 1 / 2, oobPr := 1 / 3 }]
    apparentRoc := 1 / 2, apparentPr := 1 / 3
    optimismRoc := 0, optimismPr := 0
    correctedRoc := 1 / 2, correctedPr := 1 / 3 }

lemma runIteration_wData :
    runIteration wFit wCM wData [0, 1, 0, 1] =
      some { inBagRoc := 1 / 2, inBagPr := 1 / 3, oobRoc := 1 / 2, oobPr := 1 / 3 } := by
  simp [runIteration, rowsAt, oobIndices, wData, wFit, wCM, singleClass, List.range_succ]

lemma bootstrap_wData :
    bootstrap_validation wFit wCM wData [[0, 1, 0, 1]] = Except.ok wReport := by
  simp only [bootstrap_validation, List.filterMap, runIteration_wData]
  norm_num [mean, wReport, wCM]

/-- Witness for C2 at a concrete one-iteration bootstrap run. -/
theorem C2_optimism_correction_witness :
    bootstrap_validation wFit wCM wData [[0, 1, 0, 1]] = Except.ok wReport ∧
    (wReport.correctedRoc = wReport.apparentRoc - wReport.optimismRoc ∧
     wReport.correctedPr = wReport.apparentPr - wReport.optimismPr ∧
     wReport.iterations = [[0, 1, 0, 1]].filterMap (runIteration wFit wCM wData) ∧
     wReport.optimismRoc = mean (wReport.iterations.map (fun rec => rec.inBagRoc - rec.oobRoc)) ∧
     wReport.optimismPr = mean (wReport.iterations.map (fun rec => rec.inBagPr - rec.oobPr))) :=
  ⟨bootstrap_wData,
   C2_optimism_correction wFit wCM wData [[0, 1, 0, 1]] wReport bootstrap_wData⟩

/-- Claim C3: the explainer's residual bucket is computed against the full
feature set (residual = (Ptarget − P0) − Σ of all per-feature effects), as
§4.4 of the spec requires of callers that truncate for display; the
frontend waterfall instead computes its residual against only the first 6
effects (`residualOf`). -/
theorem C3_residual_full_vs_truncated :
    (∀ (predict : Profile → ℚ) (schema : List String) (eps : ℚ)
        (baseline patient : Profile),
      (explain predict schema eps baseline patient).other_factors.effect =
        ((explain predict schema eps baseline patient).target_probability -
          (explain predict schema eps baseline patient).baseline_probability) -
        ((explain predict schema eps baseline patient).feature_effects.map
            FeatureEffect.effect).sum) ∧
    (∀ (r : PredictionResponse) (w : WaterfallView), waterfall (some r) = some w →
      (|residualOf r| > 1 / 10000 →
        w.segments.map WaterfallSegment.effect =
          ((r.explanation.feature_effects.take 6).map FeatureEffect.effect) ++
            [residualOf r]) ∧
      (¬ |residualOf r| > 1 / 10000 →
        w.segments.map WaterfallSegment.effect =
          (r.explanation.feature_effects.take 6).map FeatureEffect.effect)) := by
  constructor
  · intro predict schema eps b p
    rw [explain_sum_sorted_eq]
    show (predict p - predict b) -
        ((rawEffects predict schema eps b p).map FeatureEffect.effect).sum =
      (predict p - predict b) -
        ((rawEffects predict schema eps b p).map FeatureEffect.effect).sum
    rfl
  · intro r w h
    obtain ⟨-, -, hcase⟩ := waterfall_some_spec r h
    rcases hcase with ⟨hres, pre, other, hseg, hpre, -, heff, -⟩ | ⟨hres, hmap⟩
    · refine ⟨fun _ => ?_, fun hcontra => absurd hres hcontra⟩
      rw [hseg, List.map_append, hpre, List.map_cons, List.map_nil, heff]
    · exact ⟨fun hcontra => absurd hcontra hres, fun _ => hmap⟩

/-- Witness for C3 at the concrete `sampleResponse`. -/
theorem C3_residual_full_vs_truncated_witness :
    waterfall (some sampleResponse) = some sampleView ∧
    |residualOf sampleResponse| > 1 / 10000 ∧
    sampleView.segments.map WaterfallSegment.effect =
      ((sampleResponse.explanation.feature_effects.take 6).map FeatureEffect.effect) ++
        [residualOf sampleResponse] :=
  ⟨waterfall_sampleResponse, residualOf_sampleResponse_large,
   (C3_residual_full_vs_truncated.2 sampleResponse sampleView waterfall_sampleResponse).1
     residualOf_sampleResponse_large⟩

/-- Claim C4: an iteration whose OOB set is empty or whose in-bag or OOB
labels are single-class is marked degenerate (`none`) and excluded; a run
with at least one non-degenerate iteration still succeeds; and a run in
which every iteration is degenerate fails with the distinguished
insufficient-data error instead of aggregating over zero samples. -/
theorem C4_degenerate_handling (fit : List Row → Row → ℚ)
    (computeMetric : List Bool → List ℚ → ℚ × ℚ) (dataset : List Row) :
    (∀ draws : List ℕ,
      ((rowsAt dataset (oobIndices dataset.length draws)).isEmpty ||
        singleClass ((rowsAt dataset draws).map Row.label) ||
        singleClass ((rowsAt dataset (oobIndices dataset.length draws)).map Row.label)) = true →
      runIteration fit computeMetric dataset draws = none) ∧
    (∀ drawss : List (List ℕ),
      (∀ d ∈ drawss, runIteration fit computeMetric dataset d = none) →
      bootstrap_validation fit computeMetric dataset drawss =
        Except.error ValidationError.insufficientData) ∧
    (∀ (drawss : List (List ℕ)) (d : List ℕ) (rec : IterationRecord),
      d ∈ drawss → runIteration fit computeMetric dataset d = some rec →
      ∃ report, bootstrap_validation fit computeMetric dataset drawss =
        Except.ok report) := by
  refine ⟨?_, ?_, ?_⟩
  · intro draws hdeg
    simp only [runIteration]
    rw [if_pos hdeg]
  · intro drawss hall
    have hnil : drawss.filterMap (runIteration fit computeMetric dataset) = [] :=
      List.filterMap_eq_nil_iff.mpr hall
    simp only [bootstrap_validation]
    rw [if_pos (by rw [hnil]; rfl)]
  · intro drawss d rec hd hrec
    have hmem : rec ∈ drawss.filterMap (runIteration fit computeMetric dataset) :=
      List.mem_filterMap.mpr ⟨d, hd, hrec⟩
    have hne : drawss.filterMap (runIteration fit computeMetric dataset) ≠ [] := by
      intro hnil
      rw [hnil] at hmem
      exact (List.not_mem_nil rec) hmem
    have hfalse : (drawss.filterMap (runIteration fit computeMetric dataset)).isEmpty = false := by
      rw [List.isEmpty_eq_false]
      exact hne
    simp only [bootstrap_validation, hfalse, Bool.false_eq_true, if_false]
    exact ⟨_, rfl⟩

/-- Witness for C4: a fully in-bag draw is degenerate, an all-degenerate run
fails with insufficient-data, and a run with one valid iteration succeeds. -/
theorem C4_degenerate_handling_witness :
    runIteration wFit wCM wData [0, 1, 2, 3] = none ∧
    bootstrap_validation wFit wCM wData [[0, 1, 2, 3]] =
      Except.error ValidationError.insufficientData ∧
    (∃ report, bootstrap_validation wFit wCM wData [[0, 1, 0, 1]] = Except.ok report) :=
  ⟨(C4_degenerate_handling wFit wCM wData).1 [0, 1, 2, 3] (by decide),
   (C4_degenerate_handling wFit wCM wData).2.1 [[0, 1, 2, 3]] (by decide),
   (C4_degenerate_handling wFit wCM wData).2.2 [[0, 1, 0, 1]] [0, 1, 0, 1]
     { inBagRoc := 1 / 2, inBagPr := 1 / 3, oobRoc := 1 / 2, oobPr := 1 / 3 }
     (by decide) runIteration_wData⟩

/-- A concrete two-feature schema for exercising the explainer. -/
def wSchema : List String := ["age", "bmi"]

/-- A concrete baseline profile: every feature is `1`. -/
def wBaseline : Profile := fun _ => SerializedValue.num 1

/-- A concrete patient profile: `age` is `2`, everything else `1`. -/
def wPatient : Profile := fun f => if f = "age" then SerializedValue.num 2 else SerializedValue.num 1

/-- A concrete classifier: scores a profile by its `age` value over ten. -/
def wPredict : Profile → ℚ := fun pr =>
  match pr "age" with
  | SerializedValue.num q => q / 10
  | _ => 0

/-- The `age` effect the explainer derives from the concrete inputs. -/
def eAge : FeatureEffect :=
  { feature := "age", effect := 1 / 10, direction := Direction.increase,
    patient_value := SerializedValue.num 2, reference_value := SerializedValue.num 1 }

/-- The `bmi` effect the explainer derives from the concrete inputs. -/
def eBmi : FeatureEffect :=
  { feature := "bmi", effect := 0, direction := Direction.neutral,
    patient_value := SerializedValue.num 1, reference_value := SerializedValue.num 1 }

/-- The full explanation the explainer derives from the concrete inputs. -/
def wExplResult : ExplanationResult :=
  { baseline_probability := 1 / 10
    feature_effects := [eAge, eBmi]
    other_factors :=
      { feature := "other_factors", effect := 0, direction := Direction.neutral,
        patient_value := SerializedValue.null, reference_value := SerializedValue.null }
    target_probability := 1 / 5 }

lemma explain_w_eq : explain wPredict wSchema (1 / 10000) wBaseline wPatient = wExplResult := by
  norm_num [explain, rawEffects, wSchema, wPredict, wBaseline, wPatient, directionTag,
    List.insertionSort, List.orderedInsert, effGE, wExplResult, eAge, eBmi, abs_of_nonneg,
    show ¬("age" = "bmi") from by decide, show ¬("bmi" = "age") from by decide]

/-- Claim C5: every effect the explainer produces, the residual bucket
included, carries the ε-band direction tag of §4.4 step 5; the frontend's
`other_factors` segment instead gets its direction from a strict sign
comparison with `0`, with no ε band. -/
theorem C5_direction_tags :
    (∀ (predict : Profile → ℚ) (schema : List String) (eps : ℚ)
        (baseline patient : Profile) (e : FeatureEffect),
      e ∈ (explain predict schema eps baseline patient).feature_effects →
      e.direction = directionTag eps e.effect) ∧
    (∀ (predict : Profile → ℚ) (schema : List String) (eps : ℚ)
        (baseline patient : Profile),
      (explain predict schema eps baseline patient).other_factors.direction =
        directionTag eps (explain predict schema eps baseline patient).other_factors.effect) ∧
    (∀ (r : PredictionResponse) (w : WaterfallView), waterfall (some r) = some w →
      |residualOf r| > 1 / 10000 →
      ∃ pre other, w.segments = pre ++ [other] ∧ other.feature = "other_factors" ∧
        other.direction =
          (if residualOf r > 0 then Direction.increase
           else if residualOf r < 0 then Direction.decrease
           else Direction.neutral)) := by
  refine ⟨?_, ?_, ?_⟩
  · intro predict schema eps b p e he
    replace he : e ∈ List.insertionSort effGE (rawEffects predict schema eps b p) := he
    rw [List.mem_insertionSort] at he
    simp only [rawEffects, List.mem_map] at he
    obtain ⟨f, -, rfl⟩ := he
    rfl
  · intro predict schema eps b p
    rfl
  · intro r w h hres
    obtain ⟨-, -, hcase⟩ := waterfall_some_spec r h
    rcases hcase with ⟨-, pre, other, hseg, -, hfeat, -, hdir⟩ | ⟨hcontra, -⟩
    · exact ⟨pre, other, hseg, hfeat, hdir⟩
    · exact absurd hres hcontra

/-- Witness for C5 at the concrete explainer inputs and `sampleResponse`. -/
theorem C5_direction_tags_witness :
    eAge ∈ (explain wPredict wSchema (1 / 10000) wBaseline wPatient).feature_effects ∧
    eAge.direction = directionTag (1 / 10000) eAge.effect ∧
    waterfall (some sampleResponse) = some sampleView ∧
    (∃ pre other, sampleView.segments = pre ++ [other] ∧ other.feature = "other_factors" ∧
      other.direction =
        (if residualOf sampleResponse > 0 then Direction.increase
         else if residualOf sampleResponse < 0 then Direction.decrease
         else Direction.neutral)) :=
  ⟨by rw [explain_w_eq]; exact List.mem_cons_self eAge [eBmi],
   C5_direction_tags.1 wPredict wSchema (1 / 10000) wBaseline wPatient eAge
     (by rw [explain_w_eq]; exact List.mem_cons_self eAge [eBmi]),
   waterfall_sampleResponse,
   C5_direction_tags.2.2 sampleResponse sampleView waterfall_sampleResponse
     residualOf_sampleResponse_large⟩

lemma sorted_take_drop {l : List FeatureEffect} (hs : List.Sorted effGE l) (K : ℕ)
    {x y : FeatureEffect} (hx : x ∈ l.take K) (hy : y ∈ l.drop K) :
    |y.effect| ≤ |x.effect| := by
  have hs' : List.Pairwise effGE (l.take K ++ l.drop K) := by
    rw [List.take_append_drop]
    exact hs
  exact (List.pairwise_append.mp hs').2.2 x hx y hy

/-- Claim C6: the explainer's effect list is sorted by descending absolute
effect, so for every K the first K elements (the slice both frontends take)
dominate in absolute magnitude every element beyond them. -/
theorem C6_ordering :
    (∀ (predict : Profile → ℚ) (schema : List String) (eps : ℚ)
        (baseline patient : Profile),
      List.Sorted effGE (explain predict schema eps baseline patient).feature_effects) ∧
    (∀ (predict : Profile → ℚ) (schema : List String) (eps : ℚ)
        (baseline patient : Profile) (K : ℕ) (x y : FeatureEffect),
      x ∈ ((explain predict schema eps baseline patient).feature_effects.take K) →
      y ∈ ((explain predict schema eps baseline patient).feature_effects.drop K) →
      |y.effect| ≤ |x.effect|) := by
  constructor
  · intro predict schema eps b p
    exact List.sorted_insertionSort effGE (rawEffects predict schema eps b p)
  · intro predict schema eps b p K x y hx hy
    exact sorted_take_drop
      (List.sorted_insertionSort effGE (rawEffects predict schema eps b p)) K hx hy

/-- Witness for C6 at the concrete explainer inputs: the head of the sorted
list dominates the tail element. -/
theorem C6_ordering_witness :
    eAge ∈ (explain wPredict wSchema (1 / 10000) wBaseline wPatient).feature_effects.take 1 ∧
    eBmi ∈ (explain wPredict wSchema (1 / 10000) wBaseline wPatient).feature_effects.drop 1 ∧
    |eBmi.effect| ≤ |eAge.effect| :=
  ⟨by rw [explain_w_eq]; exact List.mem_cons_self eAge [],
   by rw [explain_w_eq]; exact List.mem_cons_self eBmi [],
   C6_ordering.2 wPredict wSchema (1 / 10000) wBaseline wPatient 1 eAge eBmi
     (by rw [explain_w_eq]; exact List.mem_cons_self eAge [])
     (by rw [explain_w_eq]; exact List.mem_cons_self eBmi [])⟩

/-- Claim C7: the tier mapper is a total deterministic function into
{low, moderate, high} given by the two thresholds, with the inclusive-upper
boundary convention: a probability equal to `t_low` maps to moderate and one
equal to `t_high` maps to high. -/
theorem C7_tier_mapper (tLow tHigh : ℚ) (h : tLow < tHigh) :
    tier tLow tHigh tLow = RiskTier.moderate ∧
    tier tLow tHigh tHigh = RiskTier.high ∧
    (∀ p : ℚ, p < tLow → tier tLow tHigh p = RiskTier.low) ∧
    (∀ p : ℚ, tLow ≤ p → p < tHigh → tier tLow tHigh p = RiskTier.moderate) ∧
    (∀ p : ℚ, tHigh ≤ p → tier tLow tHigh p = RiskTier.high) := by
  refine ⟨?_, ?_, ?_, ?_, ?_⟩
  · rw [tier, if_neg (not_le.mpr h), if_pos le_rfl]
  · rw [tier, if_pos le_rfl]
  · intro p hp
    rw [tier, if_neg (not_le.mpr (hp.trans h)), if_neg (not_le.mpr hp)]
  · intro p hp1 hp2
    rw [tier, if_neg (not_le.mpr hp2), if_pos hp1]
  · intro p hp
    rw [tier, if_pos hp]

/-- Witness for C7 at thresholds 3/10 and 6/10. -/
theorem C7_tier_mapper_witness :
    (3 : ℚ) / 10 < 6 / 10 ∧
    tier (3 / 10) (6 / 10) (3 / 10) = RiskTier.moderate ∧
    tier (3 / 10) (6 / 10) (6 / 10) = RiskTier.high :=
  ⟨by norm_num,
   (C7_tier_mapper (3 / 10) (6 / 10) (by norm_num)).1,
   (C7_tier_mapper (3 / 10) (6 / 10) (by norm_num)).2.1⟩

/-- Claim C8: the explanation pipeline and the frontend waterfall derivation
are pure functions of their inputs — two invocations on equal classifier,
baseline, patient (respectively equal responses) give identical outputs. -/
theorem C8_determinism :
    (∀ (predict₁ predict₂ : Profile → ℚ) (schema₁ schema₂ : List String)
        (eps₁ eps₂ : ℚ) (baseline₁ baseline₂ patient₁ patient₂ : Profile),
      predict₁ = predict₂ → schema₁ = schema₂ → eps₁ = eps₂ →
      baseline₁ = baseline₂ → patient₁ = patient₂ →
      explain predict₁ schema₁ eps₁ baseline₁ patient₁ =
        explain predict₂ schema₂ eps₂ baseline₂ patient₂) ∧
    (∀ r₁ r₂ : Option PredictionResponse, r₁ = r₂ → waterfall r₁ = waterfall r₂) := by
  constructor
  · intro predict₁ predict₂ schema₁ schema₂ eps₁ eps₂ b₁ b₂ p₁ p₂ h1 h2 h3 h4 h5
    rw [h1, h2, h3, h4, h5]
  · intro r₁ r₂ h
    rw [h]

/-- Witness for C8 at the concrete explainer inputs and `sampleResponse`. -/
theorem C8_determinism_witness :
    explain wPredict wSchema (1 / 10000) wBaseline wPatient =
      explain wPredict wSchema (1 / 10000) wBaseline wPatient ∧
    waterfall (some sampleResponse) = waterfall (some sampleResponse) :=
  ⟨C8_determinism.1 wPredict wPredict wSchema wSchema (1 / 10000) (1 / 10000)
     wBaseline wBaseline wPatient wPatient rfl rfl rfl rfl rfl,
   C8_determinism.2 (some sampleResponse) (some sampleResponse) rfl⟩

/-- Claim C9: when a result is already present and the serialized form
equals the last successfully submitted serialization, `handleSubmit`
returns early — no network request is issued and result, error,
lastSubmitted and loading state are all left unchanged. -/
theorem C9_duplicate_submit_guard (stringify : PredictionRequest → String)
    (fetchPredict : PredictionRequest → FetchResult) (form : PredictionRequest)
    (st : ClientState) (h₁ : st.result.isSome = true)
    (h₂ : st.lastSubmitted = some (stringify form)) :
    handleSubmit stringify fetchPredict form st = (st, 0) := by
  simp only [handleSubmit]
  rw [if_pos ⟨h₁, h₂⟩]

/-- A concrete serializer and a concrete rejected-fetch collaborator. -/
def wStringify : PredictionRequest → String := fun _ => "x"

/-- A concrete fetch collaborator whose call would visibly change state. -/
def wFetch : PredictionRequest → FetchResult := fun _ => FetchResult.networkError none

/-- A concrete state holding a result and the matching last serialization. -/
def wState : ClientState :=
  { result := some sampleResponse, lastSubmitted := some "x",
    isLoading := false, error := none }

/-- Witness for C9 at the concrete duplicate-submission state. -/
theorem C9_duplicate_submit_guard_witness :
    wState.result.isSome = true ∧
    wState.lastSubmitted = some (wStringify initialForm) ∧
    handleSubmit wStringify wFetch initialForm wState = (wState, 0) :=
  ⟨rfl, rfl, C9_duplicate_submit_guard wStringify wFetch initialForm wState rfl rfl⟩

/-- Claim C10: whenever the frontend waterfall appends an `other_factors`
segment, that segment's direction is never neutral — the segment only
exists when the residual's magnitude exceeds `0.0001`, so the residual is
nonzero and the neutral branch of the ternary is unreachable. -/
theorem C10_residual_never_neutral (r : PredictionResponse) (w : WaterfallView)
    (h : waterfall (some r) = some w) (hres : |residualOf r| > 1 / 10000) :
    ∃ pre other, w.segments = pre ++ [other] ∧ other.feature = "other_factors" ∧
      other.direction ≠ Direction.neutral := by
  obtain ⟨-, -, hcase⟩ := waterfall_some_spec r h
  rcases hcase with ⟨-, pre, other, hseg, -, hfeat, -, hdir⟩ | ⟨hcontra, -⟩
  · refine ⟨pre, other, hseg, hfeat, ?_⟩
    have hne : residualOf r ≠ 0 := by
      intro h0
      rw [h0, abs_zero] at hres
      norm_num at hres
    rcases lt_or_gt_of_ne hne with hlt | hgt
    · rw [hdir, if_neg (not_lt.mpr hlt.le), if_pos hlt]
      intro hcontra
      exact Direction.noConfusion hcontra
    · rw [hdir, if_pos hgt]
      intro hcontra
      exact Direction.noConfusion hcontra
  · exact absurd hres hcontra

/-- Witness for C10 at the concrete `sampleResponse`. -/
theorem C10_residual_never_neutral_witness :
    waterfall (some sampleResponse) = some sampleView ∧
    |residualOf sampleResponse| > 1 / 10000 ∧
    (∃ pre other, sampleView.segments = pre ++ [other] ∧
      other.feature = "other_factors" ∧ other.direction ≠ Direction.neutral) :=
  ⟨waterfall_sampleResponse, residualOf_sampleResponse_large,
   C10_residual_never_neutral sampleResponse sampleView waterfall_sampleResponse
     residualOf_sampleResponse_large⟩
